import Mathlib

/-!
# Lockbox sagas: device pairing and session establishment

A shallow embedding of `data/components/lockbox/sagas.js`.

A saga is a generator: it yields effect descriptions (`put`, `select`, `call`,
`race`) to the redux-saga middleware, which answers each one with a value or
throws an error back into the generator.  Here a saga is a function of the
environment that answers the effects; running it gives the trace of what the
saga issued and how it ended (returned, raised, or still waiting on an effect
that never settles).

JavaScript objects used as maps (the stored devices) are finite key/value
lists of their own keys; a property lookup on them also finds the properties
a plain object inherits from `Object.prototype`. `undefined` is `none`.
-/

namespace Lockbox

/-! ## Values -/

/-- Errors thrown into or out of a saga. -/
inductive Err where
  /-- A `TypeError` raised by the JavaScript runtime (property access on `undefined`). -/
  | typeError (msg : String)
  /-- A value thrown by the code itself or by a collaborator (a poll timeout, a selector failure). -/
  | thrown (value : String)
  deriving DecidableEq, Repr

/-- The wallet's `Remote` wrapper around selector results. -/
inductive Remote (α : Type) where
  | notAsked
  | loading
  | failure (msg : String)
  | success (a : α)
  deriving DecidableEq, Repr

/-- Modelled from the spec: `Remote.getOrElse` (core package, not in this fragment), the
"optional value wrapping with an implicit fallback": the wrapped value of a `Success`,
the given default for `NotAsked`, `Loading` and `Failure`. -/
def Remote.getOrElse {α : Type} (r : Remote α) (dflt : α) : α :=
  match r with
  | .success a => a
  | _ => dflt

/-- Modelled from the spec: `Remote.getOrFail` (core package, not in this fragment): the
wrapped value of a `Success`, otherwise the given error value is thrown. -/
def Remote.getOrFail {α : Type} (r : Remote α) (errorValue : String) : Except Err α :=
  match r with
  | .success a => .ok a
  | _ => .error (.thrown errorValue)

/-- An open transport channel to a device (an opaque handle). -/
structure Transport where
  handle : Nat
  deriving DecidableEq, Repr

/-- The result of `new Btc(transport)`. -/
structure Btc where
  transport : Transport
  deriving DecidableEq, Repr

/-- Key material read from the device by `derviveDeviceInfo`. -/
structure DeviceInfo where
  btc : String
  bch : String
  eth : String
  deriving DecidableEq, Repr

/-- The pending device of a pairing session, as stored by `setNewDeviceInfo`. -/
structure NewDevice where
  id : String
  info : DeviceInfo
  type : String
  deriving DecidableEq, Repr

/-- A record of the device registry (kvStore). -/
structure Device where
  device_type : String
  device_name : String
  deriving DecidableEq, Repr

/-- The stored devices: an object keyed by device id. -/
abbrev Devices := List (String × Device)

/-- Ramda `keysIn` on the stored devices. -/
def keysIn (devices : Devices) : List String := devices.map Prod.fst

/-- Ramda `contains`. -/
def contains (x : String) (xs : List String) : Bool := xs.contains x

/-- The names of the properties every plain object inherits from `Object.prototype`. They are
not enumerable, so `keysIn` does not list them, but a property lookup finds them. -/
def objectPrototypeKeys : List String :=
  ["constructor", "__proto__", "hasOwnProperty", "isPrototypeOf", "propertyIsEnumerable",
   "toLocaleString", "toString", "valueOf", "__defineGetter__", "__defineSetter__",
   "__lookupGetter__", "__lookupSetter__"]

/-- The value of a property lookup on the stored devices. -/
inductive Lookup where
  /-- The record stored under an own key. -/
  | own (device : Device)
  /-- A member of `Object.prototype` (a function, or the prototype itself): an object without
  a `device_type` property. -/
  | inherited
  | undefined
  deriving DecidableEq, Repr

/-- Property lookup `storedDevices[deviceId]`: the record under the own key when there is one;
otherwise the lookup walks the prototype chain and finds what `Object.prototype` holds under
that name, or nothing. -/
def Devices.get (devices : Devices) (deviceId : String) : Lookup :=
  match devices.find? (fun kv => kv.1 == deviceId) with
  | some kv => .own kv.2
  | none => if deviceId ∈ objectPrototypeKeys then .inherited else .undefined

/-- The accounts metadata entry built by `generateAccountsMDEntry`. -/
abbrev MDEntry := String

/-- The module's `logLocation`. -/
def logLocation : String := "components/lockbox/sagas"

/-- Alert messages of `services/AlertService`. -/
inductive Alert where
  | LOCKBOX_SETUP_SUCCESS
  | LOCKBOX_SETUP_ERROR
  | LOCKBOX_UPDATE_SUCCESS
  | LOCKBOX_UPDATE_ERROR
  | LOCKBOX_DELETE_SUCCESS
  | LOCKBOX_DELETE_ERROR
  deriving DecidableEq, Repr

/-- Redux actions built by the action creators the sagas use (`A.*` and `actions.*`). -/
inductive Action where
  | routerPush (path : String)
  | logErrorMessage (location : String) (operation : String) (cause : Err)
  | displaySuccess (msg : Alert)
  | displayError (msg : Alert)
  | closeModal
  | fetchData
  | createNewDeviceEntry (id : String) (type : String) (deviceName : String) (md : MDEntry)
  | kvUpdateDeviceBalanceDisplay (deviceID : String) (showBalances : Bool)
  | storeDeviceName (deviceID : String) (deviceName : String)
  | deleteDeviceLockbox (deviceID : String)
  | saveNewDeviceKvStoreLoading
  | saveNewDeviceKvStoreSuccess
  | saveNewDeviceKvStoreFailure (e : Err)
  | updateDeviceBalanceDisplayLoading
  | updateDeviceBalanceDisplaySuccess
  | updateDeviceBalanceDisplayFailure
  | updateDeviceNameLoading
  | updateDeviceNameSuccess
  | updateDeviceNameFailure
  | deleteDeviceLoading
  | deleteDeviceSuccess
  | deleteDeviceFailure (e : Err)
  | storeTransportObject (t : Transport)
  | changeDeviceSetupStep (step : String)
  | setNewDeviceInfo (d : NewDevice)
  | deviceConnected
  deriving DecidableEq, Repr

/-- Selectors the sagas read. -/
inductive Selector where
  | getDevices
  | getNewDeviceInfo
  deriving DecidableEq, Repr

/-- Functions of `services/LockboxService` invoked through `call`, with their arguments. An
argument that is `undefined` is `none`; a device type written as a string stands for `some`
of it. -/
inductive Call where
  | pollForAppConnection (deviceType : Option String) (app : String) (timeout : Option Nat)
  | derviveDeviceInfo (btcConnection : Btc)
  | deriveDeviceID (btc : String)
  deriving DecidableEq, Repr

/-- One entry of the object handed to `race`: an effect still to be run, or a plain value. -/
inductive Branch where
  | effect (c : Call)
  | value (t : Transport)
  deriving DecidableEq, Repr

/-- What a saga issues while it runs. A `put` is recorded when the action is dispatched;
a put that throws dispatches nothing. -/
inductive Event where
  | put (a : Action)
  | select (s : Selector)
  | call (c : Call)
  | race (LEDGER : Branch) (BLOCKCHAIN : Branch)
  | windowAlert (msg : String)
  deriving DecidableEq, Repr

/-- How a saga, or one of its effects, ends. -/
inductive Completion (α : Type) where
  | returned (a : α)
  | raised (e : Err)
  /-- Waiting on an effect that never settles. -/
  | pending
  deriving DecidableEq, Repr

/-- The world around a saga: what each effect is answered with. -/
structure Env where
  /-- Result of `select(selectors.core.kvStore.lockbox.getDevices)`. -/
  getDevices : Except Err (Remote Devices)
  /-- Result of `select(S.getNewDeviceInfo)`. -/
  getNewDeviceInfo : Except Err (Remote NewDevice)
  /-- Outcome of `LockboxService.pollForAppConnection(deviceType, app, timeout)`. -/
  pollForAppConnection : Option String → String → Option Nat → Completion Transport
  /-- Outcome of `LockboxService.derviveDeviceInfo(btcConnection)`. -/
  derviveDeviceInfo : Btc → Completion DeviceInfo
  /-- Outcome of `LockboxService.deriveDeviceID(btc)`. -/
  deriveDeviceID : String → Completion String
  /-- Result of the plain function `LockboxService.generateAccountsMDEntry(info)`. -/
  generateAccountsMDEntry : DeviceInfo → Except Err MDEntry
  /-- The error a `put` of the given action throws back into the saga, if any. -/
  putFails : Action → Option Err
  /-- Which branch settles first when both branches of a race are running effects. -/
  ledgerFirst : Bool

/-- The state of a run: the events issued so far and how the run stands. -/
structure Run (α : Type) where
  trace : List Event
  result : Completion α

/-- A saga: given the environment and the events issued so far, a run. -/
def Saga (α : Type) : Type := Env → List Event → Run α

namespace Saga

/-- A saga that returns at once. -/
def ret {α : Type} (a : α) : Saga α := fun _ tr => ⟨tr, .returned a⟩

/-- A saga that throws. -/
def raise {α : Type} (e : Err) : Saga α := fun _ tr => ⟨tr, .raised e⟩

/-- Sequencing: the rest runs only when the first part returned. -/
def andThen {α β : Type} (m : Saga α) (f : α → Saga β) : Saga β := fun env tr =>
  match m env tr with
  | ⟨tr1, .returned a⟩ => f a env tr1
  | ⟨tr1, .raised e⟩ => ⟨tr1, .raised e⟩
  | ⟨tr1, .pending⟩ => ⟨tr1, .pending⟩

/-- A `try { body } catch (e) { handler }` statement. -/
def tryCatch {α : Type} (body : Saga α) (handler : Err → Saga α) : Saga α := fun env tr =>
  match body env tr with
  | ⟨tr1, .raised e⟩ => handler e env tr1
  | r => r

instance : Monad Saga where
  pure := ret
  bind := andThen

/-- Lift the result of a plain (non-effect) computation that may throw. -/
def ofExcept {α : Type} (x : Except Err α) : Saga α :=
  match x with
  | .ok a => ret a
  | .error e => raise e

/-- The plain function call `LockboxService.generateAccountsMDEntry(info)`. -/
def generateAccountsMDEntry (info : DeviceInfo) : Saga MDEntry := fun env tr =>
  match env.generateAccountsMDEntry info with
  | .ok md => ⟨tr, .returned md⟩
  | .error e => ⟨tr, .raised e⟩

/-- Record an event. -/
def emit (ev : Event) : Saga Unit := fun _ tr => ⟨tr ++ [ev], .returned ()⟩

/-- The effect `yield put(action)`. -/
def put (a : Action) : Saga Unit := fun env tr =>
  match env.putFails a with
  | none => ⟨tr ++ [.put a], .returned ()⟩
  | some e => ⟨tr, .raised e⟩

/-- The effect `yield select(selectors.core.kvStore.lockbox.getDevices)`. -/
def selectGetDevices : Saga (Remote Devices) := fun env tr =>
  match env.getDevices with
  | .ok r => ⟨tr ++ [.select .getDevices], .returned r⟩
  | .error e => ⟨tr ++ [.select .getDevices], .raised e⟩

/-- The effect `yield select(S.getNewDeviceInfo)`. -/
def selectGetNewDeviceInfo : Saga (Remote NewDevice) := fun env tr =>
  match env.getNewDeviceInfo with
  | .ok r => ⟨tr ++ [.select .getNewDeviceInfo], .returned r⟩
  | .error e => ⟨tr ++ [.select .getNewDeviceInfo], .raised e⟩

/-- The effect `yield call(LockboxService.pollForAppConnection, deviceType, app, timeout)`. -/
def callPollForAppConnection (deviceType : Option String) (app : String)
    (timeout : Option Nat) : Saga Transport := fun env tr =>
  ⟨tr ++ [.call (.pollForAppConnection deviceType app timeout)],
    env.pollForAppConnection deviceType app timeout⟩

/-- The effect `yield call(LockboxService.derviveDeviceInfo, btcConnection)`. -/
def callDerviveDeviceInfo (btcConnection : Btc) : Saga DeviceInfo := fun env tr =>
  ⟨tr ++ [.call (.derviveDeviceInfo btcConnection)], env.derviveDeviceInfo btcConnection⟩

/-- The effect `yield call(LockboxService.deriveDeviceID, btc)`. -/
def callDeriveDeviceID (btc : String) : Saga String := fun env tr =>
  ⟨tr ++ [.call (.deriveDeviceID btc)], env.deriveDeviceID btc⟩

/-- How a branch of a race that is a poll settles. -/
def branchOutcome (env : Env) : Call → Completion Transport
  | .pollForAppConnection d a t => env.pollForAppConnection d a t
  | _ => .pending

/-- The effect `yield race({ LEDGER: ..., BLOCKCHAIN: ... })` of redux-saga. The branches are
started in key order; a branch that is not an effect resolves at once with itself, which
settles the race before any later branch is started. The result object has the single key
of the winner: it is given here as the pair of that key and its value. -/
def race (LEDGER BLOCKCHAIN : Branch) : Saga (String × Transport) := fun env tr =>
  let tr1 := tr ++ [.race LEDGER BLOCKCHAIN]
  match LEDGER, BLOCKCHAIN with
  | .value t, _ => ⟨tr1, .returned ("LEDGER", t)⟩
  | .effect _, .value t => ⟨tr1, .returned ("BLOCKCHAIN", t)⟩
  | .effect c1, .effect c2 =>
    match branchOutcome env c1, branchOutcome env c2 with
    | .pending, .pending => ⟨tr1, .pending⟩
    | .pending, .returned t => ⟨tr1, .returned ("BLOCKCHAIN", t)⟩
    | .pending, .raised e => ⟨tr1, .raised e⟩
    | .returned t, .pending => ⟨tr1, .returned ("LEDGER", t)⟩
    | .raised e, .pending => ⟨tr1, .raised e⟩
    | .returned t1, .returned t2 =>
      if env.ledgerFirst then ⟨tr1, .returned ("LEDGER", t1)⟩
      else ⟨tr1, .returned ("BLOCKCHAIN", t2)⟩
    | .returned t1, .raised e =>
      if env.ledgerFirst then ⟨tr1, .returned ("LEDGER", t1)⟩ else ⟨tr1, .raised e⟩
    | .raised e, .returned t2 =>
      if env.ledgerFirst then ⟨tr1, .raised e⟩ else ⟨tr1, .returned ("BLOCKCHAIN", t2)⟩
    | .raised e1, .raised e2 =>
      if env.ledgerFirst then ⟨tr1, .raised e1⟩ else ⟨tr1, .raised e2⟩

/-- Run a saga from the empty trace. -/
def run {α : Type} (m : Saga α) (env : Env) : Run α := m env []

end Saga

open Saga

/-- The actions dispatched in a trace. -/
def emitted (tr : List Event) : List Action :=
  tr.filterMap fun ev => match ev with
    | .put a => some a
    | _ => none

/-- The calls issued in a trace. -/
def calls (tr : List Event) : List Call :=
  tr.filterMap fun ev => match ev with
    | .call c => some c
    | _ => none

/-! ## The sagas -/

/-- A dispatched redux action as a saga receives it: an object with `type` and `payload`. -/
structure ReduxAction (P : Type) where
  type : String
  payload : P

/-- The creators under `actions.logs` of the `data` module. -/
structure Logs where
  logErrorMessage : String → String → Err → Action

/-- The imported `actions.logs`. -/
def actionsLogs : Logs := ⟨Action.logErrorMessage⟩

/-- Property lookup `.logs` on a dispatched action: the object has the properties `type` and
`payload` only, so the lookup gives `undefined` (`none`). -/
def ReduxAction.logs {P : Type} (_ : ReduxAction P) : Option Logs := none

structure SaveNewDevicePayload where
  deviceName : String

structure BalanceDisplayPayload where
  deviceID : String
  showBalances : Bool

structure DeviceNamePayload where
  deviceID : String
  deviceName : String

structure DeleteDevicePayload where
  deviceID : String

structure ConnectDevicePayload where
  app : String
  deviceId : String
  timeout : Option Nat

/-- The `try` block of `determineLockboxRoute`. -/
def determineLockboxRoute.tryBlock : Saga Unit := do
  let devicesR ← selectGetDevices
  let devices := devicesR.getOrElse []
  if (keysIn devices).length != 0 then
    put (.routerPush "/lockbox/dashboard")
  else
    put (.routerPush "/lockbox/onboard")

/-- The `catch` block of `determineLockboxRoute`. -/
def determineLockboxRoute.catchBlock (e : Err) : Saga Unit :=
  put (actionsLogs.logErrorMessage logLocation "determineLockboxRoute" e)

/-- Determines if lockbox is set up and routes the app accordingly. -/
def determineLockboxRoute : Saga Unit :=
  tryCatch determineLockboxRoute.tryBlock determineLockboxRoute.catchBlock

/-- The `try` block of `saveNewDeviceKvStore`. -/
def saveNewDeviceKvStore.tryBlock (action : ReduxAction SaveNewDevicePayload) : Saga Unit := do
  let deviceName := action.payload.deviceName
  put .saveNewDeviceKvStoreLoading
  let newDeviceR ← selectGetNewDeviceInfo
  let newDevice ← ofExcept (newDeviceR.getOrFail "missing_device")
  let mdAccountsEntry ← generateAccountsMDEntry newDevice.info
  put (.createNewDeviceEntry newDevice.id newDevice.type deviceName mdAccountsEntry)
  put .saveNewDeviceKvStoreSuccess
  put .closeModal
  put (.routerPush "/lockbox/dashboard")
  put .fetchData
  put (.changeDeviceSetupStep "setup-type")
  put (.displaySuccess .LOCKBOX_SETUP_SUCCESS)

/-- The `catch` block of `saveNewDeviceKvStore`. -/
def saveNewDeviceKvStore.catchBlock (e : Err) : Saga Unit := do
  put (.saveNewDeviceKvStoreFailure e)
  put (.displayError .LOCKBOX_SETUP_ERROR)
  put (actionsLogs.logErrorMessage logLocation "storeDeviceName" e)

/-- Saves the new device to the kvStore. -/
def saveNewDeviceKvStore (action : ReduxAction SaveNewDevicePayload) : Saga Unit :=
  tryCatch (saveNewDeviceKvStore.tryBlock action) saveNewDeviceKvStore.catchBlock

/-- The `try` block of `updateDeviceBalanceDisplay`. -/
def updateDeviceBalanceDisplay.tryBlock (action : ReduxAction BalanceDisplayPayload) :
    Saga Unit := do
  let deviceID := action.payload.deviceID
  let showBalances := action.payload.showBalances
  put .updateDeviceBalanceDisplayLoading
  put (.kvUpdateDeviceBalanceDisplay deviceID showBalances)
  put .updateDeviceBalanceDisplaySuccess
  put (.displaySuccess .LOCKBOX_UPDATE_SUCCESS)

/-- The `catch` block of `updateDeviceBalanceDisplay`. -/
def updateDeviceBalanceDisplay.catchBlock (e : Err) : Saga Unit := do
  put .updateDeviceBalanceDisplayFailure
  put (.displayError .LOCKBOX_UPDATE_ERROR)
  put (actionsLogs.logErrorMessage logLocation "updateDeviceBalanceDisplay" e)

/-- Updates the balance-display preference of a device. -/
def updateDeviceBalanceDisplay (action : ReduxAction BalanceDisplayPayload) : Saga Unit :=
  tryCatch (updateDeviceBalanceDisplay.tryBlock action) updateDeviceBalanceDisplay.catchBlock

/-- The `try` block of `updateDeviceName`. -/
def updateDeviceName.tryBlock (action : ReduxAction DeviceNamePayload) : Saga Unit := do
  let deviceID := action.payload.deviceID
  let deviceName := action.payload.deviceName
  put .updateDeviceNameLoading
  put (.storeDeviceName deviceID deviceName)
  put .updateDeviceNameSuccess
  put (.displaySuccess .LOCKBOX_UPDATE_SUCCESS)

/-- The `catch` block of `updateDeviceName`. -/
def updateDeviceName.catchBlock (e : Err) : Saga Unit := do
  put .updateDeviceNameFailure
  put (.displayError .LOCKBOX_UPDATE_ERROR)
  put (actionsLogs.logErrorMessage logLocation "updateDeviceName" e)

/-- Renames a device in the kvStore. -/
def updateDeviceName (action : ReduxAction DeviceNamePayload) : Saga Unit :=
  tryCatch (updateDeviceName.tryBlock action) updateDeviceName.catchBlock

/-- The `try` block of `deleteDevice`. -/
def deleteDevice.tryBlock (action : ReduxAction DeleteDevicePayload) : Saga Unit := do
  let deviceID := action.payload.deviceID
  put .deleteDeviceLoading
  put (.deleteDeviceLockbox deviceID)
  put (.routerPush "/lockbox")
  put .deleteDeviceSuccess
  put (.displaySuccess .LOCKBOX_DELETE_SUCCESS)

/-- The `catch` block of `deleteDevice`. -/
def deleteDevice.catchBlock (e : Err) : Saga Unit := do
  put (.deleteDeviceFailure e)
  put (actionsLogs.logErrorMessage logLocation "deleteDevice" e)
  put (.displayError .LOCKBOX_DELETE_ERROR)

/-- Deletes a device from the kvStore. -/
def deleteDevice (action : ReduxAction DeleteDevicePayload) : Saga Unit :=
  tryCatch (deleteDevice.tryBlock action) deleteDevice.catchBlock

/-- The `try` block of `initializeNewDeviceSetup`. The argument of `race` is an object literal
whose `LEDGER` entry is `yield call(...)`: evaluating the literal yields that call on its own
and waits for its result, and only then is the race built, with the result as its `LEDGER`
entry and the `BLOCKCHAIN` call effect as the other. -/
def initializeNewDeviceSetup.tryBlock : Saga Unit := do
  let setupTimeout := 1500000
  let ledger ← callPollForAppConnection "LEDGER" "DASHBOARD" (some setupTimeout)
  let dashboardTransport ← race (.value ledger)
    (.effect (.pollForAppConnection "BLOCKCHAIN" "DASHBOARD" (some setupTimeout)))
  let deviceType := dashboardTransport.1
  put (.storeTransportObject dashboardTransport.2)
  put (.changeDeviceSetupStep "open-btc-app")
  let btcTransport ← callPollForAppConnection deviceType "BTC" none
  put (.storeTransportObject btcTransport)
  let btcConnection := Btc.mk btcTransport
  let newDeviceInfo ← callDerviveDeviceInfo btcConnection
  let newDeviceId ← callDeriveDeviceID newDeviceInfo.btc
  put (.setNewDeviceInfo (NewDevice.mk newDeviceId newDeviceInfo deviceType))
  let storedDevicesR ← selectGetDevices
  let storedDevices := storedDevicesR.getOrElse []
  if contains newDeviceId (keysIn storedDevices) then
    put (.changeDeviceSetupStep "duplicate-device")
  else
    put (.changeDeviceSetupStep "name-device")

/-- The `catch` block of `initializeNewDeviceSetup`. -/
def initializeNewDeviceSetup.catchBlock (e : Err) : Saga Unit := do
  emit (.windowAlert "DEVICE CONNECTION TIMEOUT")
  put (actionsLogs.logErrorMessage logLocation "initializeNewDeviceSetup" e)

/-- The new device setup saga. -/
def initializeNewDeviceSetup : Saga Unit :=
  tryCatch initializeNewDeviceSetup.tryBlock initializeNewDeviceSetup.catchBlock

/-- The expression `storedDevices[deviceId].device_type`: the `device_type` of the stored
record; `undefined` when the lookup found a member of `Object.prototype`, which has no such
property; and when the lookup gives `undefined`, reading a property of it throws a
`TypeError`. -/
def readDeviceType (storedDevices : Devices) (deviceId : String) :
    Except Err (Option String) :=
  match storedDevices.get deviceId with
  | .own device => .ok (some device.device_type)
  | .inherited => .ok none
  | .undefined => .error (.typeError "Cannot read property 'device_type' of undefined")

/-- The `try` block of `connectDevice`. -/
def connectDevice.tryBlock (actions : ReduxAction ConnectDevicePayload) : Saga Unit := do
  let app := actions.payload.app
  let deviceId := actions.payload.deviceId
  let timeout := actions.payload.timeout
  let storedDevicesR ← selectGetDevices
  let storedDevices := storedDevicesR.getOrElse []
  let deviceType ← ofExcept (readDeviceType storedDevices deviceId)
  let _ ← callPollForAppConnection deviceType app timeout
  put .deviceConnected

/-- The `catch` block of `connectDevice`. The saga's parameter is named `actions`, so inside
the saga `actions.logs` is a property lookup on the dispatched action, not on the imported
`actions`: the lookup gives `undefined` and reading `.logErrorMessage` of it throws. -/
def connectDevice.catchBlock (actions : ReduxAction ConnectDevicePayload) (e : Err) :
    Saga Unit :=
  match actions.logs with
  | some logs => put (logs.logErrorMessage logLocation "connectDevice" e)
  | none => raise (.typeError "Cannot read property 'logErrorMessage' of undefined")

/-- Polls for device connection and application to be opened. -/
def connectDevice (actions : ReduxAction ConnectDevicePayload) : Saga Unit :=
  tryCatch (connectDevice.tryBlock actions) (connectDevice.catchBlock actions)

/-! ## Observations on traces -/

/-- The setup steps announced in a trace, in order. -/
def setupSteps (tr : List Event) : List String :=
  (emitted tr).filterMap fun a => match a with
    | .changeDeviceSetupStep s => some s
    | _ => none

/-- The action is a success notification. -/
def Action.isDisplaySuccess : Action → Bool
  | .displaySuccess _ => true
  | _ => false

/-- The action is an error notification. -/
def Action.isDisplayError : Action → Bool
  | .displayError _ => true
  | _ => false

/-- The action is a notification (alert). -/
def Action.isAlert (a : Action) : Bool := a.isDisplaySuccess || a.isDisplayError

/-- The action is a log entry. -/
def Action.isLog : Action → Bool
  | .logErrorMessage _ _ _ => true
  | _ => false

/-- The action is one of the `*Failure` actions of the registry sagas. -/
def Action.isFailure : Action → Bool
  | .saveNewDeviceKvStoreFailure _ => true
  | .updateDeviceBalanceDisplayFailure => true
  | .updateDeviceNameFailure => true
  | .deleteDeviceFailure _ => true
  | _ => false

/-- The action writes a new device into the registry. -/
def Action.isCreateNewDeviceEntry : Action → Bool
  | .createNewDeviceEntry _ _ _ _ => true
  | _ => false

/-- An event that is neither a notification, nor a log entry, nor a `*Failure` action. -/
def Quiet (ev : Event) : Prop :=
  ∀ a, ev = .put a → a.isAlert = false ∧ a.isLog = false ∧ a.isFailure = false

/-- An event that is neither a log entry nor a setup-step announcement other than
`open-btc-app`. -/
def Event.beforeVerdict : Event → Bool
  | .put (.changeDeviceSetupStep s) => s == "open-btc-app"
  | .put (.logErrorMessage _ _ _) => false
  | _ => true

/-- An event that is not a race whose `LEDGER` entry is an effect still to be run. -/
def Event.raceLedgerSettled : Event → Bool
  | .race (.effect _) _ => false
  | _ => true

/-- The notification discipline of a saga made of a `try` block and a `catch` block, read off
the run of the `try` block alone and the run of the whole saga: exactly one alert; when the
`try` block raised, it is a `displayError`, with one log entry and one `*Failure` action; when
it returned, it is a `displaySuccess`, with no log entry and no `*Failure` action. -/
def OneNotification (tryRun run : Run Unit) : Prop :=
  let out := emitted run.trace
  out.countP Action.isAlert = 1 ∧
  ((∃ e, tryRun.result = .raised e) →
    out.countP Action.isDisplayError = 1 ∧ out.countP Action.isLog = 1 ∧
    out.countP Action.isFailure = 1 ∧ out.countP Action.isDisplaySuccess = 0) ∧
  (tryRun.result = .returned () →
    out.countP Action.isDisplaySuccess = 1 ∧ out.countP Action.isLog = 0 ∧
    out.countP Action.isFailure = 0 ∧ out.countP Action.isDisplayError = 0) ∧
  ((∃ e, tryRun.result = .raised e) ∨ tryRun.result = .returned ())

namespace Saga

/-- Every event the saga adds to the trace satisfies `P`, and it removes none. -/
def Emits {α : Type} (P : Event → Prop) (m : Saga α) : Prop :=
  ∀ env tr, ∃ suffix, (m env tr).trace = tr ++ suffix ∧ ∀ ev ∈ suffix, P ev

/-- The saga never waits forever. -/
def Settles {α : Type} (m : Saga α) : Prop :=
  ∀ env tr, (m env tr).result ≠ .pending

/-- The saga adds events satisfying `P`, and when it returns it has added one more event,
satisfying `last`, as the final one. -/
def EndsWith (P : Event → Prop) (last : Event → Prop) (m : Saga Unit) : Prop :=
  ∀ env tr, ∃ suffix, (∀ ev ∈ suffix, P ev) ∧
    ((∃ l, last l ∧ m env tr = ⟨tr ++ suffix ++ [l], .returned ()⟩) ∨
      ((m env tr).trace = tr ++ suffix ∧ (m env tr).result ≠ .returned ()))

end Saga

/-! ## Scenarios -/

/-- Key material of the simulated device. -/
def sampleInfo : DeviceInfo := ⟨"xpub-btc", "xpub-bch", "xpub-eth"⟩

/-- A fresh registry; both application contexts become available; the key material yields the
identity `abc123`; the pairing session holds that device. -/
def envFresh : Env where
  getDevices := .ok (.success [])
  getNewDeviceInfo := .ok (.success ⟨"abc123", sampleInfo, "LEDGER"⟩)
  pollForAppConnection := fun deviceType _ _ =>
    if deviceType = "LEDGER" then .returned ⟨1⟩ else .returned ⟨2⟩
  derviveDeviceInfo := fun _ => .returned sampleInfo
  deriveDeviceID := fun _ => .returned "abc123"
  generateAccountsMDEntry := fun info => .ok info.btc
  putFails := fun _ => none
  ledgerFirst := true

/-- The registry already holds the identity `abc123`. -/
def envPaired : Env :=
  { envFresh with getDevices := .ok (.success [("abc123", ⟨"LEDGER", "My Lockbox"⟩)]) }

/-- The registry has not been loaded. -/
def envUnavailable : Env :=
  { envFresh with getDevices := .ok .loading }

/-- The dashboard context never becomes available within the timeout. -/
def envDashboardTimeout : Env :=
  { envFresh with
    pollForAppConnection := fun _ app _ =>
      if app = "DASHBOARD" then .raised (.thrown "Timeout") else .returned ⟨1⟩ }

/-- A Blockchain device answers the dashboard poll, a Ledger device never does. -/
def envBlockchainFirst : Env :=
  { envFresh with
    pollForAppConnection := fun deviceType _ _ =>
      if deviceType = "LEDGER" then .pending else .returned ⟨2⟩ }

/-- The registry holds `abc123`, and no application context becomes available in time. -/
def envPollTimeout : Env :=
  { envPaired with pollForAppConnection := fun _ _ _ => .raised (.thrown "Timeout") }

/-- The pairing session holds no device. -/
def envNoNewDevice : Env :=
  { envFresh with getNewDeviceInfo := .ok .notAsked }

/-- A save request with the name the user typed. -/
def saveAction : ReduxAction SaveNewDevicePayload := ⟨"SAVE_NEW_DEVICE_KVSTORE", ⟨"My Lockbox"⟩⟩

/-- A request to connect to the device `abc123` in the BTC context. -/
def connectKnown : ReduxAction ConnectDevicePayload := ⟨"CONNECT_DEVICE", ⟨"BTC", "abc123", some 5000⟩⟩

/-- A request to connect to a device that is not in the registry. -/
def connectUnknown : ReduxAction ConnectDevicePayload := ⟨"CONNECT_DEVICE", ⟨"BTC", "zzz999", none⟩⟩

/-- A request to connect to the device id `constructor`, a name every object inherits. -/
def connectInherited : ReduxAction ConnectDevicePayload :=
  ⟨"CONNECT_DEVICE", ⟨"BTC", "constructor", some 5000⟩⟩

/-! ## Reasoning about runs -/

namespace Saga

@[simp] theorem bind_def {α β : Type} (m : Saga α) (f : α → Saga β) :
    (m >>= f) = andThen m f := rfl

@[simp] theorem pure_def {α : Type} (a : α) : (pure a : Saga α) = ret a := rfl

theorem emits_ret {α : Type} (P : Event → Prop) (a : α) : Emits P (ret a) :=
  fun _ _ => ⟨[], by simp [ret]⟩

theorem emits_raise {α : Type} (P : Event → Prop) (e : Err) : Emits P (raise e : Saga α) :=
  fun _ _ => ⟨[], by simp [raise]⟩

theorem emits_ofExcept {α : Type} (P : Event → Prop) (x : Except Err α) :
    Emits P (ofExcept x) := by
  cases x
  · exact emits_raise P _
  · exact emits_ret P _

theorem emits_generateAccountsMDEntry (P : Event → Prop) (info : DeviceInfo) :
    Emits P (generateAccountsMDEntry info) := by
  intro env tr
  refine ⟨[], ?_, by simp⟩
  cases hg : env.generateAccountsMDEntry info <;> simp [generateAccountsMDEntry, hg]

theorem emits_emit {P : Event → Prop} {ev : Event} (h : P ev) : Emits P (emit ev) :=
  fun _ _ => ⟨[ev], by simp [emit, h]⟩

theorem emits_put {P : Event → Prop} {a : Action} (h : P (.put a)) : Emits P (put a) := by
  intro env tr
  cases hp : env.putFails a
  · exact ⟨[.put a], by simp [put, hp, h]⟩
  · exact ⟨[], by simp [put, hp]⟩

theorem emits_selectGetDevices {P : Event → Prop} (h : P (.select .getDevices)) :
    Emits P selectGetDevices := by
  intro env tr
  refine ⟨[.select .getDevices], ?_, by simpa using h⟩
  cases hg : env.getDevices <;> simp [selectGetDevices, hg]

theorem emits_selectGetNewDeviceInfo {P : Event → Prop} (h : P (.select .getNewDeviceInfo)) :
    Emits P selectGetNewDeviceInfo := by
  intro env tr
  refine ⟨[.select .getNewDeviceInfo], ?_, by simpa using h⟩
  cases hg : env.getNewDeviceInfo <;> simp [selectGetNewDeviceInfo, hg]

theorem emits_callPollForAppConnection {P : Event → Prop} {d : Option String} {a : String}
    {t : Option Nat}
    (h : P (.call (.pollForAppConnection d a t))) : Emits P (callPollForAppConnection d a t) :=
  fun _ _ => ⟨[.call (.pollForAppConnection d a t)], by simp [callPollForAppConnection, h]⟩

theorem emits_callDerviveDeviceInfo {P : Event → Prop} {b : Btc}
    (h : P (.call (.derviveDeviceInfo b))) : Emits P (callDerviveDeviceInfo b) :=
  fun _ _ => ⟨[.call (.derviveDeviceInfo b)], by simp [callDerviveDeviceInfo, h]⟩

theorem emits_callDeriveDeviceID {P : Event → Prop} {k : String}
    (h : P (.call (.deriveDeviceID k))) : Emits P (callDeriveDeviceID k) :=
  fun _ _ => ⟨[.call (.deriveDeviceID k)], by simp [callDeriveDeviceID, h]⟩

theorem emits_race {P : Event → Prop} {l b : Branch} (h : P (.race l b)) :
    Emits P (race l b) := by
  intro env tr
  refine ⟨[.race l b], ?_, by simpa using h⟩
  unfold race
  simp only
  repeat' split
  all_goals rfl

theorem emits_andThen {α β : Type} {P : Event → Prop} {m : Saga α} {f : α → Saga β}
    (hm : Emits P m) (hf : ∀ a, Emits P (f a)) : Emits P (andThen m f) := by
  intro env tr
  obtain ⟨s1, h1, hs1⟩ := hm env tr
  unfold andThen
  generalize m env tr = r at h1
  obtain ⟨tr1, res⟩ := r
  simp only at h1
  subst h1
  cases res with
  | returned a =>
    obtain ⟨s2, h2, hs2⟩ := hf a env (tr ++ s1)
    refine ⟨s1 ++ s2, by simp [h2], ?_⟩
    intro ev hev
    rcases List.mem_append.mp hev with h | h
    · exact hs1 ev h
    · exact hs2 ev h
  | raised e => exact ⟨s1, rfl, hs1⟩
  | pending => exact ⟨s1, rfl, hs1⟩

theorem emits_bind {α β : Type} {P : Event → Prop} {m : Saga α} {f : α → Saga β}
    (hm : Emits P m) (hf : ∀ a, Emits P (f a)) : Emits P (m >>= f) :=
  emits_andThen hm hf

theorem emits_tryCatch {α : Type} {P : Event → Prop} {body : Saga α} {handler : Err → Saga α}
    (hb : Emits P body) (hh : ∀ e, Emits P (handler e)) : Emits P (tryCatch body handler) := by
  intro env tr
  obtain ⟨s1, h1, hs1⟩ := hb env tr
  unfold tryCatch
  generalize body env tr = r at h1
  obtain ⟨tr1, res⟩ := r
  simp only at h1
  subst h1
  cases res with
  | raised e =>
    obtain ⟨s2, h2, hs2⟩ := hh e env (tr ++ s1)
    refine ⟨s1 ++ s2, by simp [h2], ?_⟩
    intro ev hev
    rcases List.mem_append.mp hev with h | h
    · exact hs1 ev h
    · exact hs2 ev h
  | returned a => exact ⟨s1, rfl, hs1⟩
  | pending => exact ⟨s1, rfl, hs1⟩

theorem emits_ite {α : Type} {P : Event → Prop} {c : Prop} [Decidable c] {m n : Saga α}
    (hm : Emits P m) (hn : Emits P n) : Emits P (if c then m else n) := by
  split
  · exact hm
  · exact hn

/-- What `Emits` says about a run from the empty trace. -/
theorem Emits.of_run {α : Type} {P : Event → Prop} {m : Saga α} (h : Emits P m) (env : Env) :
    ∀ ev ∈ (m.run env).trace, P ev := by
  obtain ⟨s, hs, hP⟩ := h env []
  intro ev hev
  simp only [Saga.run, hs, List.nil_append] at hev
  exact hP ev hev

theorem settles_ret {α : Type} (a : α) : Settles (ret a) := by
  intro env tr; simp [ret]

theorem settles_raise {α : Type} (e : Err) : Settles (raise e : Saga α) := by
  intro env tr; simp [raise]

theorem settles_ofExcept {α : Type} (x : Except Err α) : Settles (ofExcept x) := by
  cases x
  · exact settles_raise _
  · exact settles_ret _

theorem settles_generateAccountsMDEntry (info : DeviceInfo) :
    Settles (generateAccountsMDEntry info) := by
  intro env tr
  cases hg : env.generateAccountsMDEntry info <;> simp [generateAccountsMDEntry, hg]

theorem settles_put (a : Action) : Settles (put a) := by
  intro env tr
  cases hp : env.putFails a <;> simp [put, hp]

theorem settles_selectGetDevices : Settles selectGetDevices := by
  intro env tr
  cases hg : env.getDevices <;> simp [selectGetDevices, hg]

theorem settles_selectGetNewDeviceInfo : Settles selectGetNewDeviceInfo := by
  intro env tr
  cases hg : env.getNewDeviceInfo <;> simp [selectGetNewDeviceInfo, hg]

theorem settles_andThen {α β : Type} {m : Saga α} {f : α → Saga β}
    (hm : Settles m) (hf : ∀ a, Settles (f a)) : Settles (andThen m f) := by
  intro env tr
  have h1 := hm env tr
  unfold andThen
  generalize m env tr = r at h1
  obtain ⟨tr1, res⟩ := r
  cases res with
  | returned a => exact hf a env tr1
  | raised e => simp
  | pending => simp at h1

theorem settles_bind {α β : Type} {m : Saga α} {f : α → Saga β}
    (hm : Settles m) (hf : ∀ a, Settles (f a)) : Settles (m >>= f) :=
  settles_andThen hm hf

theorem endsWith_put {P last : Event → Prop} {a : Action} (h : last (.put a)) :
    EndsWith P last (put a) := by
  intro env tr
  refine ⟨[], by simp, ?_⟩
  cases hp : env.putFails a
  · exact Or.inl ⟨.put a, h, by simp [put, hp]⟩
  · exact Or.inr (by simp [put, hp])

theorem endsWith_andThen {α : Type} {P last : Event → Prop} {m : Saga α} {f : α → Saga Unit}
    (hm : Emits P m) (hf : ∀ a, EndsWith P last (f a)) : EndsWith P last (andThen m f) := by
  intro env tr
  obtain ⟨s1, h1, hs1⟩ := hm env tr
  unfold andThen
  generalize m env tr = r at h1
  obtain ⟨tr1, res⟩ := r
  simp only at h1
  subst h1
  cases res with
  | returned a =>
    obtain ⟨s2, hs2, h2⟩ := hf a env (tr ++ s1)
    refine ⟨s1 ++ s2, ?_, ?_⟩
    · intro ev hev
      rcases List.mem_append.mp hev with h | h
      · exact hs1 ev h
      · exact hs2 ev h
    · rcases h2 with ⟨l, hl, h2⟩ | ⟨h2, h3⟩
      · exact Or.inl ⟨l, hl, by simp [h2]⟩
      · exact Or.inr ⟨by simp [h2], h3⟩
  | raised e => exact ⟨s1, hs1, Or.inr (by simp)⟩
  | pending => exact ⟨s1, hs1, Or.inr (by simp)⟩

theorem endsWith_bind {α : Type} {P last : Event → Prop} {m : Saga α} {f : α → Saga Unit}
    (hm : Emits P m) (hf : ∀ a, EndsWith P last (f a)) : EndsWith P last (m >>= f) :=
  endsWith_andThen hm hf

theorem endsWith_ite {P last : Event → Prop} {c : Prop} [Decidable c] {m n : Saga Unit}
    (hm : EndsWith P last m) (hn : EndsWith P last n) : EndsWith P last (if c then m else n) := by
  split
  · exact hm
  · exact hn

end Saga

open Saga

theorem countP_emitted_quiet (p : Action → Bool) (s : List Event)
    (hp : ∀ a, (a.isAlert = false ∧ a.isLog = false ∧ a.isFailure = false) → p a = false)
    (hs : ∀ ev ∈ s, Quiet ev) : (emitted s).countP p = 0 := by
  rw [List.countP_eq_zero]
  intro a ha
  simp only [emitted, List.mem_filterMap] at ha
  obtain ⟨ev, hev, hea⟩ := ha
  cases ev with
  | put b =>
    simp only [Option.some.injEq] at hea
    subst hea
    simp [hp b (hs _ hev b rfl)]
  | _ => simp at hea

theorem countP_isAlert (acts : List Action) :
    acts.countP Action.isAlert =
      acts.countP Action.isDisplaySuccess + acts.countP Action.isDisplayError := by
  induction acts with
  | nil => rfl
  | cons a rest ih =>
    cases a <;> simp [List.countP_cons, ih, Action.isAlert, Action.isDisplaySuccess,
      Action.isDisplayError] <;> omega

theorem emitted_put (a : Action) : emitted [.put a] = [a] := rfl

theorem emitted_map_put (acts : List Action) : emitted (acts.map Event.put) = acts := by
  induction acts with
  | nil => rfl
  | cons a rest ih => simpa [emitted] using ih

theorem emitted_append (s t : List Event) : emitted (s ++ t) = emitted s ++ emitted t := by
  simp [emitted]

/-- A saga whose `try` block is quiet until its final `displaySuccess`, and whose `catch`
block dispatches one `*Failure` action, one `displayError` and one log entry. -/
theorem oneNotification_of_endsWith (env : Env) {body : Saga Unit} {handler : Err → Saga Unit}
    (hb : EndsWith Quiet (fun l => ∃ msg, l = .put (.displaySuccess msg)) body)
    (hs : Settles body)
    (hh : ∀ e tr, ∃ acts : List Action,
      handler e env tr = ⟨tr ++ acts.map Event.put, .returned ()⟩ ∧
      acts.countP Action.isDisplayError = 1 ∧ acts.countP Action.isLog = 1 ∧
      acts.countP Action.isFailure = 1 ∧ acts.countP Action.isDisplaySuccess = 0) :
    OneNotification (body.run env) ((Saga.tryCatch body handler).run env) := by
  obtain ⟨s, hq, h⟩ := hb env []
  have hS := hs env []
  have c1 := countP_emitted_quiet Action.isAlert s (fun a h => h.1) hq
  have c2 := countP_emitted_quiet Action.isDisplayError s
    (fun a h => by have := h.1; simp [Action.isAlert] at this; exact this.2) hq
  have c3 := countP_emitted_quiet Action.isDisplaySuccess s
    (fun a h => by have := h.1; simp [Action.isAlert] at this; exact this.1) hq
  have c4 := countP_emitted_quiet Action.isLog s (fun a h => h.2.1) hq
  have c5 := countP_emitted_quiet Action.isFailure s (fun a h => h.2.2) hq
  unfold OneNotification Saga.run Saga.tryCatch
  rcases h with ⟨l, ⟨msg, hl⟩, h⟩ | ⟨h1, h2⟩
  · subst hl
    simp only [h, List.nil_append, emitted_append, List.countP_append, c1, c2, c3, c4, c5,
      emitted_put]
    simp [Action.isAlert, Action.isDisplaySuccess, Action.isDisplayError, Action.isLog,
      Action.isFailure]
  · generalize body env [] = r at h1 h2 hS
    obtain ⟨tr1, res⟩ := r
    simp only [List.nil_append] at h1
    subst h1
    cases res with
    | returned a => simp at h2
    | pending => simp at hS
    | raised e =>
      obtain ⟨acts, ha, k1, k2, k3, k4⟩ := hh e tr1
      have hem : emitted (List.map Event.put acts) = acts := emitted_map_put acts
      have k5 : acts.countP Action.isAlert = 1 := by
        rw [countP_isAlert, k1, k4]
      simp only [ha, emitted_append, List.countP_append, c1, c2, c3, c4, c5, hem, k1, k2, k3,
        k4, k5]
      simp

theorem quiet_put (a : Action)
    (h : (a.isAlert || a.isLog || a.isFailure) = false) : Quiet (.put a) := by
  intro b hb
  cases hb
  simp only [Bool.or_eq_false_iff] at h
  exact ⟨h.1.1, h.1.2, h.2⟩

theorem quiet_select (s : Selector) : Quiet (.select s) := by
  intro b hb
  cases hb

/-! ### The registry sagas -/

theorem saveNewDeviceKvStore_tryBlock_endsWith (action : ReduxAction SaveNewDevicePayload) :
    EndsWith Quiet (fun l => ∃ msg, l = .put (.displaySuccess msg))
      (saveNewDeviceKvStore.tryBlock action) := by
  unfold saveNewDeviceKvStore.tryBlock
  repeat' first
    | apply endsWith_bind
    | apply endsWith_put
    | apply emits_put
    | apply emits_selectGetNewDeviceInfo
    | apply emits_ofExcept
    | apply emits_generateAccountsMDEntry
    | exact ⟨_, rfl⟩
    | exact quiet_put _ rfl
    | exact quiet_select _
    | intro (_ : Unit)
    | intro (_ : Remote NewDevice)
    | intro (_ : NewDevice)
    | intro (_ : MDEntry)

theorem saveNewDeviceKvStore_tryBlock_settles (action : ReduxAction SaveNewDevicePayload) :
    Settles (saveNewDeviceKvStore.tryBlock action) := by
  unfold saveNewDeviceKvStore.tryBlock
  repeat' first
    | apply settles_bind
    | apply settles_put
    | apply settles_selectGetNewDeviceInfo
    | apply settles_ofExcept
    | apply settles_generateAccountsMDEntry
    | intro (_ : Unit)
    | intro (_ : Remote NewDevice)
    | intro (_ : NewDevice)
    | intro (_ : MDEntry)

theorem updateDeviceBalanceDisplay_tryBlock_endsWith
    (action : ReduxAction BalanceDisplayPayload) :
    EndsWith Quiet (fun l => ∃ msg, l = .put (.displaySuccess msg))
      (updateDeviceBalanceDisplay.tryBlock action) := by
  unfold updateDeviceBalanceDisplay.tryBlock
  repeat' first
    | apply endsWith_bind
    | apply endsWith_put
    | apply emits_put
    | exact ⟨_, rfl⟩
    | exact quiet_put _ rfl
    | intro (_ : Unit)

theorem updateDeviceBalanceDisplay_tryBlock_settles
    (action : ReduxAction BalanceDisplayPayload) :
    Settles (updateDeviceBalanceDisplay.tryBlock action) := by
  unfold updateDeviceBalanceDisplay.tryBlock
  repeat' first
    | apply settles_bind
    | apply settles_put
    | intro (_ : Unit)

theorem updateDeviceName_tryBlock_endsWith (action : ReduxAction DeviceNamePayload) :
    EndsWith Quiet (fun l => ∃ msg, l = .put (.displaySuccess msg))
      (updateDeviceName.tryBlock action) := by
  unfold updateDeviceName.tryBlock
  repeat' first
    | apply endsWith_bind
    | apply endsWith_put
    | apply emits_put
    | exact ⟨_, rfl⟩
    | exact quiet_put _ rfl
    | intro (_ : Unit)

theorem updateDeviceName_tryBlock_settles (action : ReduxAction DeviceNamePayload) :
    Settles (updateDeviceName.tryBlock action) := by
  unfold updateDeviceName.tryBlock
  repeat' first
    | apply settles_bind
    | apply settles_put
    | intro (_ : Unit)

theorem deleteDevice_tryBlock_endsWith (action : ReduxAction DeleteDevicePayload) :
    EndsWith Quiet (fun l => ∃ msg, l = .put (.displaySuccess msg))
      (deleteDevice.tryBlock action) := by
  unfold deleteDevice.tryBlock
  repeat' first
    | apply endsWith_bind
    | apply endsWith_put
    | apply emits_put
    | exact ⟨_, rfl⟩
    | exact quiet_put _ rfl
    | intro (_ : Unit)

theorem deleteDevice_tryBlock_settles (action : ReduxAction DeleteDevicePayload) :
    Settles (deleteDevice.tryBlock action) := by
  unfold deleteDevice.tryBlock
  repeat' first
    | apply settles_bind
    | apply settles_put
    | intro (_ : Unit)

/-- C6. In each of `saveNewDeviceKvStore`, `updateDeviceBalanceDisplay`, `updateDeviceName` and
`deleteDevice`, when the puts of the `catch` block do not fail (so that at most one step fails,
inside the `try` block, a failing put dispatching nothing), exactly one alert is dispatched: a
`displayError` with exactly one log entry and one `*Failure` action when a step of the `try`
block failed, a `displaySuccess` with no log entry and no `*Failure` action otherwise. -/
theorem registry_sagas_one_notification (env : Env)
    (hcatch : ∀ a, (a.isDisplayError || a.isLog || a.isFailure) = true → env.putFails a = none)
    (save : ReduxAction SaveNewDevicePayload) (balance : ReduxAction BalanceDisplayPayload)
    (name : ReduxAction DeviceNamePayload) (delete : ReduxAction DeleteDevicePayload) :
    OneNotification ((saveNewDeviceKvStore.tryBlock save).run env)
      ((saveNewDeviceKvStore save).run env) ∧
    OneNotification ((updateDeviceBalanceDisplay.tryBlock balance).run env)
      ((updateDeviceBalanceDisplay balance).run env) ∧
    OneNotification ((updateDeviceName.tryBlock name).run env)
      ((updateDeviceName name).run env) ∧
    OneNotification ((deleteDevice.tryBlock delete).run env)
      ((deleteDevice delete).run env) := by
  have h1 := fun m => hcatch (.displayError m) rfl
  have h2 := fun o e => hcatch (.logErrorMessage logLocation o e) rfl
  have h3 := fun e => hcatch (.saveNewDeviceKvStoreFailure e) rfl
  have h4 := hcatch .updateDeviceBalanceDisplayFailure rfl
  have h5 := hcatch .updateDeviceNameFailure rfl
  have h6 := fun e => hcatch (.deleteDeviceFailure e) rfl
  refine ⟨?_, ?_, ?_, ?_⟩
  · refine oneNotification_of_endsWith env (saveNewDeviceKvStore_tryBlock_endsWith save)
      (saveNewDeviceKvStore_tryBlock_settles save) ?_
    intro e tr
    refine ⟨[.saveNewDeviceKvStoreFailure e, .displayError .LOCKBOX_SETUP_ERROR,
      .logErrorMessage logLocation "storeDeviceName" e], ?_, rfl, rfl, rfl, rfl⟩
    simp [saveNewDeviceKvStore.catchBlock, Saga.andThen, Saga.put, actionsLogs, h1, h2, h3]
  · refine oneNotification_of_endsWith env (updateDeviceBalanceDisplay_tryBlock_endsWith balance)
      (updateDeviceBalanceDisplay_tryBlock_settles balance) ?_
    intro e tr
    refine ⟨[.updateDeviceBalanceDisplayFailure, .displayError .LOCKBOX_UPDATE_ERROR,
      .logErrorMessage logLocation "updateDeviceBalanceDisplay" e], ?_, rfl, rfl, rfl, rfl⟩
    simp [updateDeviceBalanceDisplay.catchBlock, Saga.andThen, Saga.put, actionsLogs, h1, h2, h4]
  · refine oneNotification_of_endsWith env (updateDeviceName_tryBlock_endsWith name)
      (updateDeviceName_tryBlock_settles name) ?_
    intro e tr
    refine ⟨[.updateDeviceNameFailure, .displayError .LOCKBOX_UPDATE_ERROR,
      .logErrorMessage logLocation "updateDeviceName" e], ?_, rfl, rfl, rfl, rfl⟩
    simp [updateDeviceName.catchBlock, Saga.andThen, Saga.put, actionsLogs, h1, h2, h5]
  · refine oneNotification_of_endsWith env (deleteDevice_tryBlock_endsWith delete)
      (deleteDevice_tryBlock_settles delete) ?_
    intro e tr
    refine ⟨[.deleteDeviceFailure e, .logErrorMessage logLocation "deleteDevice" e,
      .displayError .LOCKBOX_DELETE_ERROR], ?_, rfl, rfl, rfl, rfl⟩
    simp [deleteDevice.catchBlock, Saga.andThen, Saga.put, actionsLogs, h1, h2, h6]

theorem registry_sagas_one_notification_witness :
    (∀ a, (a.isDisplayError || a.isLog || a.isFailure) = true → envNoNewDevice.putFails a = none) ∧
    ((saveNewDeviceKvStore.tryBlock saveAction).run envNoNewDevice).result =
      .raised (.thrown "missing_device") ∧
    OneNotification ((saveNewDeviceKvStore.tryBlock saveAction).run envNoNewDevice)
      ((saveNewDeviceKvStore saveAction).run envNoNewDevice) ∧
    OneNotification ((updateDeviceBalanceDisplay.tryBlock ⟨"UPDATE", ⟨"abc123", true⟩⟩).run envNoNewDevice)
      ((updateDeviceBalanceDisplay ⟨"UPDATE", ⟨"abc123", true⟩⟩).run envNoNewDevice) ∧
    OneNotification ((updateDeviceName.tryBlock ⟨"RENAME", ⟨"abc123", "Cold"⟩⟩).run envNoNewDevice)
      ((updateDeviceName ⟨"RENAME", ⟨"abc123", "Cold"⟩⟩).run envNoNewDevice) ∧
    OneNotification ((deleteDevice.tryBlock ⟨"DELETE", ⟨"abc123"⟩⟩).run envNoNewDevice)
      ((deleteDevice ⟨"DELETE", ⟨"abc123"⟩⟩).run envNoNewDevice) :=
  ⟨fun _ _ => rfl, rfl,
    registry_sagas_one_notification envNoNewDevice (fun _ _ => rfl) saveAction
      ⟨"UPDATE", ⟨"abc123", true⟩⟩ ⟨"RENAME", ⟨"abc123", "Cold"⟩⟩ ⟨"DELETE", ⟨"abc123"⟩⟩⟩

/-! ### Pairing -/

theorem contains_iff (x : String) (xs : List String) : contains x xs = true ↔ x ∈ xs := by
  simp [contains]

/-- The run of `initializeNewDeviceSetup` when the dashboard poll, the BTC poll, both
derivations, the registry read and all puts succeed. -/
theorem initializeNewDeviceSetup_run_success (env : Env) (t1 t2 : Transport)
    (info : DeviceInfo) (X : String) (R : Remote Devices)
    (hdash : env.pollForAppConnection "LEDGER" "DASHBOARD" (some 1500000) = .returned t1)
    (hbtc : env.pollForAppConnection "LEDGER" "BTC" none = .returned t2)
    (hinfo : env.derviveDeviceInfo ⟨t2⟩ = .returned info)
    (hid : env.deriveDeviceID info.btc = .returned X)
    (hreg : env.getDevices = .ok R)
    (hput : ∀ a, env.putFails a = none) :
    initializeNewDeviceSetup.run env =
      ⟨[.call (.pollForAppConnection "LEDGER" "DASHBOARD" (some 1500000)),
        .race (.value t1)
          (.effect (.pollForAppConnection "BLOCKCHAIN" "DASHBOARD" (some 1500000))),
        .put (.storeTransportObject t1),
        .put (.changeDeviceSetupStep "open-btc-app"),
        .call (.pollForAppConnection "LEDGER" "BTC" none),
        .put (.storeTransportObject t2),
        .call (.derviveDeviceInfo ⟨t2⟩),
        .call (.deriveDeviceID info.btc),
        .put (.setNewDeviceInfo ⟨X, info, "LEDGER"⟩),
        .select .getDevices,
        .put (.changeDeviceSetupStep
          (if X ∈ keysIn (R.getOrElse []) then "duplicate-device" else "name-device"))],
       .returned ()⟩ := by
  by_cases h : X ∈ keysIn (R.getOrElse []) <;>
  simp [initializeNewDeviceSetup, initializeNewDeviceSetup.tryBlock, Saga.run, Saga.tryCatch,
    Saga.andThen, Saga.put, Saga.race, callPollForAppConnection, callDerviveDeviceInfo,
    callDeriveDeviceID, selectGetDevices, hdash, hbtc, hinfo, hid, hreg, hput, h, contains_iff]

/-- C1. When the dashboard poll, the BTC poll and both derivation calls succeed (and the
registry read and the puts do not throw), with derived identity `X` and stored devices `D`, the
saga returns, its last event is the one final `changeDeviceSetupStep`, and that step is
`duplicate-device` when `X` is a key of `D` (then `name-device` is never announced) and
`name-device` when it is not (then `duplicate-device` is never announced). -/
theorem initializeNewDeviceSetup_duplicate_detection (env : Env) (t1 t2 : Transport)
    (info : DeviceInfo) (X : String) (R : Remote Devices)
    (hdash : env.pollForAppConnection "LEDGER" "DASHBOARD" (some 1500000) = .returned t1)
    (hbtc : env.pollForAppConnection "LEDGER" "BTC" none = .returned t2)
    (hinfo : env.derviveDeviceInfo ⟨t2⟩ = .returned info)
    (hid : env.deriveDeviceID info.btc = .returned X)
    (hreg : env.getDevices = .ok R)
    (hput : ∀ a, env.putFails a = none) :
    (initializeNewDeviceSetup.run env).result = .returned () ∧
    (X ∈ keysIn (R.getOrElse []) →
      (initializeNewDeviceSetup.run env).trace.getLast? =
        some (.put (.changeDeviceSetupStep "duplicate-device")) ∧
      setupSteps (initializeNewDeviceSetup.run env).trace = ["open-btc-app", "duplicate-device"] ∧
      "name-device" ∉ setupSteps (initializeNewDeviceSetup.run env).trace) ∧
    (X ∉ keysIn (R.getOrElse []) →
      (initializeNewDeviceSetup.run env).trace.getLast? =
        some (.put (.changeDeviceSetupStep "name-device")) ∧
      setupSteps (initializeNewDeviceSetup.run env).trace = ["open-btc-app", "name-device"] ∧
      "duplicate-device" ∉ setupSteps (initializeNewDeviceSetup.run env).trace) := by
  rw [initializeNewDeviceSetup_run_success env t1 t2 info X R hdash hbtc hinfo hid hreg hput]
  refine ⟨rfl, ?_, ?_⟩
  · intro h
    simp [h, setupSteps, emitted]
  · intro h
    simp [h, setupSteps, emitted]

theorem initializeNewDeviceSetup_duplicate_detection_witness :
    ("abc123" ∈ keysIn ((Remote.success [("abc123", ⟨"LEDGER", "My Lockbox"⟩)]).getOrElse []) ∧
      (initializeNewDeviceSetup.run envPaired).result = .returned () ∧
      (initializeNewDeviceSetup.run envPaired).trace.getLast? =
        some (.put (.changeDeviceSetupStep "duplicate-device")) ∧
      setupSteps (initializeNewDeviceSetup.run envPaired).trace =
        ["open-btc-app", "duplicate-device"] ∧
      "name-device" ∉ setupSteps (initializeNewDeviceSetup.run envPaired).trace) ∧
    ("abc123" ∉ keysIn ((Remote.success ([] : Devices)).getOrElse []) ∧
      (initializeNewDeviceSetup.run envFresh).result = .returned () ∧
      (initializeNewDeviceSetup.run envFresh).trace.getLast? =
        some (.put (.changeDeviceSetupStep "name-device")) ∧
      setupSteps (initializeNewDeviceSetup.run envFresh).trace =
        ["open-btc-app", "name-device"] ∧
      "duplicate-device" ∉ setupSteps (initializeNewDeviceSetup.run envFresh).trace) :=
  ⟨⟨by decide,
      (initializeNewDeviceSetup_duplicate_detection envPaired ⟨1⟩ ⟨1⟩ sampleInfo "abc123"
        (.success [("abc123", ⟨"LEDGER", "My Lockbox"⟩)]) rfl rfl rfl rfl rfl (fun _ => rfl)).1,
      (initializeNewDeviceSetup_duplicate_detection envPaired ⟨1⟩ ⟨1⟩ sampleInfo "abc123"
        (.success [("abc123", ⟨"LEDGER", "My Lockbox"⟩)]) rfl rfl rfl rfl rfl
        (fun _ => rfl)).2.1 (by decide)⟩,
    ⟨by decide,
      (initializeNewDeviceSetup_duplicate_detection envFresh ⟨1⟩ ⟨1⟩ sampleInfo "abc123"
        (.success []) rfl rfl rfl rfl rfl (fun _ => rfl)).1,
      (initializeNewDeviceSetup_duplicate_detection envFresh ⟨1⟩ ⟨1⟩ sampleInfo "abc123"
        (.success []) rfl rfl rfl rfl rfl (fun _ => rfl)).2.2 (by decide)⟩⟩

/-- The run of `determineLockboxRoute` when the registry holds no device. -/
theorem determineLockboxRoute_run_empty (env : Env) (R : Remote Devices)
    (hreg : env.getDevices = .ok R) (hR : R.getOrElse [] = [])
    (hput : env.putFails (.routerPush "/lockbox/onboard") = none) :
    determineLockboxRoute.run env =
      ⟨[.select .getDevices, .put (.routerPush "/lockbox/onboard")], .returned ()⟩ := by
  simp [determineLockboxRoute, determineLockboxRoute.tryBlock, Saga.run, Saga.tryCatch,
    Saga.andThen, Saga.put, selectGetDevices, hreg, hR, hput, keysIn]

/-- C10. When the result of the `getDevices` selector is not a `Success`, `getOrElse({})` is
the empty map; so (the polls, the derivations and the puts succeeding) `initializeNewDeviceSetup`
announces `name-device` whatever the derived identity is, `determineLockboxRoute` pushes
`/lockbox/onboard`, and both return without dispatching a log entry. -/
theorem unavailable_registry_is_empty (env : Env) (t1 t2 : Transport)
    (info : DeviceInfo) (X : String) (R : Remote Devices)
    (hreg : env.getDevices = .ok R)
    (hR : ∀ D, R ≠ .success D)
    (hdash : env.pollForAppConnection "LEDGER" "DASHBOARD" (some 1500000) = .returned t1)
    (hbtc : env.pollForAppConnection "LEDGER" "BTC" none = .returned t2)
    (hinfo : env.derviveDeviceInfo ⟨t2⟩ = .returned info)
    (hid : env.deriveDeviceID info.btc = .returned X)
    (hput : ∀ a, env.putFails a = none) :
    R.getOrElse [] = [] ∧
    (initializeNewDeviceSetup.run env).result = .returned () ∧
    (initializeNewDeviceSetup.run env).trace.getLast? =
      some (.put (.changeDeviceSetupStep "name-device")) ∧
    setupSteps (initializeNewDeviceSetup.run env).trace = ["open-btc-app", "name-device"] ∧
    (emitted (initializeNewDeviceSetup.run env).trace).countP Action.isLog = 0 ∧
    determineLockboxRoute.run env =
      ⟨[.select .getDevices, .put (.routerPush "/lockbox/onboard")], .returned ()⟩ := by
  have hE : R.getOrElse [] = [] := by
    cases R with
    | success D => exact absurd rfl (hR D)
    | _ => rfl
  refine ⟨hE, ?_⟩
  rw [initializeNewDeviceSetup_run_success env t1 t2 info X R hdash hbtc hinfo hid hreg hput,
    determineLockboxRoute_run_empty env R hreg hE (hput _)]
  simp [hE, keysIn, setupSteps, emitted, Action.isLog]

theorem unavailable_registry_is_empty_witness :
    (∀ D, (Remote.loading : Remote Devices) ≠ .success D) ∧
    ((Remote.loading : Remote Devices).getOrElse [] = [] ∧
    (initializeNewDeviceSetup.run envUnavailable).result = .returned () ∧
    (initializeNewDeviceSetup.run envUnavailable).trace.getLast? =
      some (.put (.changeDeviceSetupStep "name-device")) ∧
    setupSteps (initializeNewDeviceSetup.run envUnavailable).trace =
      ["open-btc-app", "name-device"] ∧
    (emitted (initializeNewDeviceSetup.run envUnavailable).trace).countP Action.isLog = 0 ∧
    determineLockboxRoute.run envUnavailable =
      ⟨[.select .getDevices, .put (.routerPush "/lockbox/onboard")], .returned ()⟩) :=
  ⟨(fun _ h => by cases h),
    unavailable_registry_is_empty envUnavailable ⟨1⟩ ⟨1⟩ sampleInfo "abc123" .loading rfl
      (fun _ h => by cases h) rfl rfl rfl rfl (fun _ => rfl)⟩

/-! ### Saving the new device -/

/-- The run of `saveNewDeviceKvStore` when the pairing session holds a device and nothing
fails. -/
theorem saveNewDeviceKvStore_run_success (env : Env)
    (action : ReduxAction SaveNewDevicePayload) (d : NewDevice) (md : MDEntry)
    (hdev : env.getNewDeviceInfo = .ok (.success d))
    (hmd : env.generateAccountsMDEntry d.info = .ok md)
    (hput : ∀ a, env.putFails a = none) :
    (saveNewDeviceKvStore action).run env =
      ⟨[.put .saveNewDeviceKvStoreLoading,
        .select .getNewDeviceInfo,
        .put (.createNewDeviceEntry d.id d.type action.payload.deviceName md),
        .put .saveNewDeviceKvStoreSuccess,
        .put .closeModal,
        .put (.routerPush "/lockbox/dashboard"),
        .put .fetchData,
        .put (.changeDeviceSetupStep "setup-type"),
        .put (.displaySuccess .LOCKBOX_SETUP_SUCCESS)],
       .returned ()⟩ := by
  simp [saveNewDeviceKvStore, saveNewDeviceKvStore.tryBlock, Saga.run, Saga.tryCatch,
    Saga.andThen, Saga.put, Saga.ofExcept, Saga.ret, Saga.generateAccountsMDEntry,
    selectGetNewDeviceInfo, Remote.getOrFail, hdev, hmd, hput]

/-- The run of `saveNewDeviceKvStore` when the pairing session holds no device. -/
theorem saveNewDeviceKvStore_run_missing (env : Env)
    (action : ReduxAction SaveNewDevicePayload) (R : Remote NewDevice)
    (hdev : env.getNewDeviceInfo = .ok R) (hR : ∀ d, R ≠ .success d)
    (hput : ∀ a, env.putFails a = none) :
    (saveNewDeviceKvStore.tryBlock action).run env =
      ⟨[.put .saveNewDeviceKvStoreLoading, .select .getNewDeviceInfo],
       .raised (.thrown "missing_device")⟩ ∧
    (saveNewDeviceKvStore action).run env =
      ⟨[.put .saveNewDeviceKvStoreLoading,
        .select .getNewDeviceInfo,
        .put (.saveNewDeviceKvStoreFailure (.thrown "missing_device")),
        .put (.displayError .LOCKBOX_SETUP_ERROR),
        .put (.logErrorMessage logLocation "storeDeviceName" (.thrown "missing_device"))],
       .returned ()⟩ := by
  have hF : R.getOrFail "missing_device" = .error (.thrown "missing_device") := by
    cases R with
    | success d => exact absurd rfl (hR d)
    | _ => rfl
  simp [saveNewDeviceKvStore, saveNewDeviceKvStore.tryBlock, saveNewDeviceKvStore.catchBlock,
    Saga.run, Saga.tryCatch, Saga.andThen, Saga.put, Saga.ofExcept, Saga.raise,
    selectGetNewDeviceInfo, actionsLogs, hdev, hF, hput]

/-- C8. With all puts succeeding: when `getNewDeviceInfo` holds a device `{id, type, info}`
(and `generateAccountsMDEntry(info)` gives `md`), the saga dispatches exactly one
`createNewDeviceEntry`, with the arguments `(id, type, action.payload.deviceName, md)`, right
after `saveNewDeviceKvStoreLoading` and before `saveNewDeviceKvStoreSuccess`; when it holds no
device, the `try` block fails with `'missing_device'` and neither a `createNewDeviceEntry` nor
a `saveNewDeviceKvStoreSuccess` is dispatched. -/
theorem saveNewDeviceKvStore_persisted_record (env : Env)
    (action : ReduxAction SaveNewDevicePayload) (hput : ∀ a, env.putFails a = none) :
    (∀ d md, env.getNewDeviceInfo = .ok (.success d) →
      env.generateAccountsMDEntry d.info = .ok md →
      emitted ((saveNewDeviceKvStore action).run env).trace =
        [.saveNewDeviceKvStoreLoading,
         .createNewDeviceEntry d.id d.type action.payload.deviceName md,
         .saveNewDeviceKvStoreSuccess, .closeModal, .routerPush "/lockbox/dashboard",
         .fetchData, .changeDeviceSetupStep "setup-type",
         .displaySuccess .LOCKBOX_SETUP_SUCCESS] ∧
      (emitted ((saveNewDeviceKvStore action).run env).trace).filter
          Action.isCreateNewDeviceEntry =
        [.createNewDeviceEntry d.id d.type action.payload.deviceName md]) ∧
    (∀ R, env.getNewDeviceInfo = .ok R → (∀ d, R ≠ .success d) →
      ((saveNewDeviceKvStore.tryBlock action).run env).result =
        .raised (.thrown "missing_device") ∧
      emitted ((saveNewDeviceKvStore action).run env).trace =
        [.saveNewDeviceKvStoreLoading,
         .saveNewDeviceKvStoreFailure (.thrown "missing_device"),
         .displayError .LOCKBOX_SETUP_ERROR,
         .logErrorMessage logLocation "storeDeviceName" (.thrown "missing_device")] ∧
      (emitted ((saveNewDeviceKvStore action).run env).trace).filter
          Action.isCreateNewDeviceEntry = [] ∧
      Action.saveNewDeviceKvStoreSuccess ∉
        emitted ((saveNewDeviceKvStore action).run env).trace) := by
  constructor
  · intro d md hdev hmd
    rw [saveNewDeviceKvStore_run_success env action d md hdev hmd hput]
    simp [emitted, Action.isCreateNewDeviceEntry]
  · intro R hdev hR
    obtain ⟨h1, h2⟩ := saveNewDeviceKvStore_run_missing env action R hdev hR hput
    rw [h1, h2]
    simp [emitted, Action.isCreateNewDeviceEntry]

theorem saveNewDeviceKvStore_persisted_record_witness :
    (emitted ((saveNewDeviceKvStore saveAction).run envFresh).trace =
        [.saveNewDeviceKvStoreLoading,
         .createNewDeviceEntry "abc123" "LEDGER" "My Lockbox" "xpub-btc",
         .saveNewDeviceKvStoreSuccess, .closeModal, .routerPush "/lockbox/dashboard",
         .fetchData, .changeDeviceSetupStep "setup-type",
         .displaySuccess .LOCKBOX_SETUP_SUCCESS] ∧
      (emitted ((saveNewDeviceKvStore saveAction).run envFresh).trace).filter
          Action.isCreateNewDeviceEntry =
        [.createNewDeviceEntry "abc123" "LEDGER" "My Lockbox" "xpub-btc"]) ∧
    (((saveNewDeviceKvStore.tryBlock saveAction).run envNoNewDevice).result =
        .raised (.thrown "missing_device") ∧
      emitted ((saveNewDeviceKvStore saveAction).run envNoNewDevice).trace =
        [.saveNewDeviceKvStoreLoading,
         .saveNewDeviceKvStoreFailure (.thrown "missing_device"),
         .displayError .LOCKBOX_SETUP_ERROR,
         .logErrorMessage logLocation "storeDeviceName" (.thrown "missing_device")] ∧
      (emitted ((saveNewDeviceKvStore saveAction).run envNoNewDevice).trace).filter
          Action.isCreateNewDeviceEntry = [] ∧
      Action.saveNewDeviceKvStoreSuccess ∉
        emitted ((saveNewDeviceKvStore saveAction).run envNoNewDevice).trace) :=
  ⟨(saveNewDeviceKvStore_persisted_record envFresh saveAction (fun _ => rfl)).1
      ⟨"abc123", sampleInfo, "LEDGER"⟩ "xpub-btc" rfl rfl,
    (saveNewDeviceKvStore_persisted_record envNoNewDevice saveAction (fun _ => rfl)).2
      .notAsked rfl (fun _ h => by cases h)⟩

/-- C2, as stated, fails: with the identity `abc123` of the pending device already a key of
the stored devices, `saveNewDeviceKvStore` still dispatches `createNewDeviceEntry` for it. -/
theorem saveNewDeviceKvStore_writes_registered_identity :
    envPaired.getNewDeviceInfo = .ok (.success ⟨"abc123", sampleInfo, "LEDGER"⟩) ∧
    envPaired.getDevices = .ok (.success [("abc123", ⟨"LEDGER", "My Lockbox"⟩)]) ∧
    "abc123" ∈ keysIn [("abc123", (⟨"LEDGER", "My Lockbox"⟩ : Device))] ∧
    Action.createNewDeviceEntry "abc123" "LEDGER" "My Lockbox" "xpub-btc" ∈
      emitted ((saveNewDeviceKvStore saveAction).run envPaired).trace ∧
    (emitted ((saveNewDeviceKvStore saveAction).run envPaired).trace).filter
      Action.isCreateNewDeviceEntry ≠ [] :=
  ⟨rfl, rfl, by decide, by decide, by decide⟩

/-- C2, amended. `saveNewDeviceKvStore` does not consult the registry: whatever the stored
devices are (also when they hold the pending device's identity), when `getNewDeviceInfo` holds
a device and nothing fails, the saga dispatches exactly one `createNewDeviceEntry`, for that
device, and never reads `getDevices`. -/
theorem saveNewDeviceKvStore_ignores_registry (env : Env)
    (action : ReduxAction SaveNewDevicePayload) (d : NewDevice) (md : MDEntry)
    (registry : Except Err (Remote Devices))
    (hdev : env.getNewDeviceInfo = .ok (.success d))
    (hmd : env.generateAccountsMDEntry d.info = .ok md)
    (hput : ∀ a, env.putFails a = none) :
    (emitted ((saveNewDeviceKvStore action).run
        { env with getDevices := registry }).trace).filter Action.isCreateNewDeviceEntry =
      [.createNewDeviceEntry d.id d.type action.payload.deviceName md] ∧
    Event.select .getDevices ∉
      ((saveNewDeviceKvStore action).run { env with getDevices := registry }).trace := by
  rw [saveNewDeviceKvStore_run_success { env with getDevices := registry } action d md hdev hmd
    hput]
  simp [emitted, Action.isCreateNewDeviceEntry]

theorem saveNewDeviceKvStore_ignores_registry_witness :
    "abc123" ∈ keysIn [("abc123", (⟨"LEDGER", "Old name"⟩ : Device))] ∧
    (emitted ((saveNewDeviceKvStore saveAction).run
        { envFresh with
          getDevices := .ok (.success [("abc123", ⟨"LEDGER", "Old name"⟩)]) }).trace).filter
        Action.isCreateNewDeviceEntry =
      [.createNewDeviceEntry "abc123" "LEDGER" "My Lockbox" "xpub-btc"] ∧
    Event.select .getDevices ∉
      ((saveNewDeviceKvStore saveAction).run
        { envFresh with
          getDevices := .ok (.success [("abc123", ⟨"LEDGER", "Old name"⟩)]) }).trace :=
  ⟨by decide,
    saveNewDeviceKvStore_ignores_registry envFresh saveAction ⟨"abc123", sampleInfo, "LEDGER"⟩
      "xpub-btc" (.ok (.success [("abc123", ⟨"LEDGER", "Old name"⟩)])) rfl rfl (fun _ => rfl)⟩

/-- C9 at the failing input: the log entry of a failing `saveNewDeviceKvStore` carries the
operation name `storeDeviceName`, which is not the name of the saga. -/
theorem saveNewDeviceKvStore_logs_other_operation_name :
    (emitted ((saveNewDeviceKvStore saveAction).run envNoNewDevice).trace).filter Action.isLog =
      [.logErrorMessage "components/lockbox/sagas" "storeDeviceName"
        (.thrown "missing_device")] ∧
    "storeDeviceName" ≠ "saveNewDeviceKvStore" := by
  decide

/-! ### Reconnecting to a known device -/

theorem Devices.get_of_mem (devices : Devices) (deviceId : String)
    (h : deviceId ∈ keysIn devices) : ∃ device, devices.get deviceId = .own device := by
  unfold Devices.get
  cases hf : devices.find? (fun kv => kv.1 == deviceId) with
  | some kv => exact ⟨kv.2, rfl⟩
  | none =>
    exfalso
    simp only [keysIn, List.mem_map] at h
    obtain ⟨kv, hkv, hEq⟩ := h
    have := List.find?_eq_none.mp hf kv hkv
    simp [hEq] at this

theorem Devices.get_of_not_mem (devices : Devices) (deviceId : String)
    (h : deviceId ∉ keysIn devices) :
    devices.get deviceId =
      if deviceId ∈ objectPrototypeKeys then .inherited else .undefined := by
  unfold Devices.get
  cases hf : devices.find? (fun kv => kv.1 == deviceId) with
  | none => rfl
  | some kv =>
    exfalso
    apply h
    have h1 := List.find?_some hf
    have h2 := List.mem_of_find?_eq_some hf
    simp only [beq_iff_eq] at h1
    exact h1 ▸ List.mem_map_of_mem Prod.fst h2

/-- C5, as stated, fails: `constructor` is not a key of the stored devices, yet the lookup
`storedDevices['constructor']` finds the inherited member, nothing throws, the saga polls with
an `undefined` device type and dispatches `deviceConnected`. -/
theorem connectDevice_connects_inherited_name :
    envPaired.getDevices = .ok (.success [("abc123", ⟨"LEDGER", "My Lockbox"⟩)]) ∧
    "constructor" ∉ keysIn [("abc123", (⟨"LEDGER", "My Lockbox"⟩ : Device))] ∧
    (connectDevice connectInherited).run envPaired =
      ⟨[.select .getDevices, .call (.pollForAppConnection none "BTC" (some 5000)),
        .put .deviceConnected],
       .returned ()⟩ ∧
    Action.deviceConnected ∈ emitted ((connectDevice connectInherited).run envPaired).trace ∧
    calls ((connectDevice connectInherited).run envPaired).trace =
      [.pollForAppConnection none "BTC" (some 5000)] :=
  ⟨rfl, by decide, rfl, by decide, by decide⟩

/-- C5, amended. For a device id that is not the name of a property inherited from
`Object.prototype`, with the registry read giving the stored devices and the put of
`deviceConnected` not failing: `deviceConnected` is dispatched exactly when the device id is a
key of the stored devices and the poll succeeds; `pollForAppConnection` is called once, with
the stored record's `device_type` and the payload's `app` and `timeout`, when the device id is
registered, and not at all otherwise; for an unregistered device id the `try` block fails (with
the `TypeError` of reading `device_type` of `undefined`) before any poll, and no
`deviceConnected` is dispatched. -/
theorem connectDevice_connects_iff_registered_and_polled (env : Env)
    (actions : ReduxAction ConnectDevicePayload) (R : Remote Devices)
    (hreg : env.getDevices = .ok R)
    (hput : env.putFails .deviceConnected = none)
    (hname : actions.payload.deviceId ∉ objectPrototypeKeys) :
    (Action.deviceConnected ∈ emitted ((connectDevice actions).run env).trace ↔
      actions.payload.deviceId ∈ keysIn (R.getOrElse []) ∧
      ∃ device t, (R.getOrElse []).get actions.payload.deviceId = .own device ∧
        env.pollForAppConnection device.device_type actions.payload.app
          actions.payload.timeout = .returned t) ∧
    calls ((connectDevice actions).run env).trace =
      (match (R.getOrElse []).get actions.payload.deviceId with
        | .own device =>
          [.pollForAppConnection device.device_type actions.payload.app actions.payload.timeout]
        | _ => []) ∧
    (actions.payload.deviceId ∉ keysIn (R.getOrElse []) →
      ((connectDevice.tryBlock actions).run env).result =
        .raised (.typeError "Cannot read property 'device_type' of undefined") ∧
      calls ((connectDevice actions).run env).trace = [] ∧
      Action.deviceConnected ∉ emitted ((connectDevice actions).run env).trace) := by
  by_cases hkey : actions.payload.deviceId ∈ keysIn (R.getOrElse [])
  · obtain ⟨device, hget⟩ := Devices.get_of_mem _ _ hkey
    rcases hpoll : env.pollForAppConnection device.device_type actions.payload.app
        actions.payload.timeout with t | e | _ <;>
    simp [connectDevice, connectDevice.tryBlock, connectDevice.catchBlock, ReduxAction.logs,
      Saga.run, Saga.tryCatch, Saga.andThen, Saga.raise, Saga.ret, Saga.put, Saga.ofExcept,
      readDeviceType, selectGetDevices, callPollForAppConnection, hreg, hget, hkey, hpoll, hput,
      emitted, calls]
  · have hget : (R.getOrElse []).get actions.payload.deviceId = .undefined := by
      rw [Devices.get_of_not_mem _ _ hkey, if_neg hname]
    simp [connectDevice, connectDevice.tryBlock, connectDevice.catchBlock, ReduxAction.logs,
      Saga.run, Saga.tryCatch, Saga.andThen, Saga.raise, Saga.ofExcept, readDeviceType,
      selectGetDevices, hreg, hget, hkey, emitted, calls]

theorem connectDevice_connects_iff_registered_and_polled_witness :
    ("abc123" ∉ objectPrototypeKeys ∧
      Action.deviceConnected ∈ emitted ((connectDevice connectKnown).run envPaired).trace ∧
      calls ((connectDevice connectKnown).run envPaired).trace =
        [.pollForAppConnection "LEDGER" "BTC" (some 5000)]) ∧
    ("zzz999" ∉ objectPrototypeKeys ∧
      ((connectDevice.tryBlock connectUnknown).run envPaired).result =
        .raised (.typeError "Cannot read property 'device_type' of undefined") ∧
      calls ((connectDevice connectUnknown).run envPaired).trace = [] ∧
      Action.deviceConnected ∉ emitted ((connectDevice connectUnknown).run envPaired).trace) :=
  ⟨⟨by decide,
      (connectDevice_connects_iff_registered_and_polled envPaired connectKnown
        (.success [("abc123", ⟨"LEDGER", "My Lockbox"⟩)]) rfl rfl (by decide)).1.mpr
        ⟨by decide, ⟨"LEDGER", "My Lockbox"⟩, ⟨1⟩, rfl, rfl⟩,
      (connectDevice_connects_iff_registered_and_polled envPaired connectKnown
        (.success [("abc123", ⟨"LEDGER", "My Lockbox"⟩)]) rfl rfl (by decide)).2.1⟩,
    ⟨by decide,
      (connectDevice_connects_iff_registered_and_polled envPaired connectUnknown
        (.success [("abc123", ⟨"LEDGER", "My Lockbox"⟩)]) rfl rfl (by decide)).2.2
        (by decide)⟩⟩

theorem quiet_call (c : Call) : Quiet (.call c) := by
  intro b hb
  cases hb

theorem connectDevice_emits_quiet (actions : ReduxAction ConnectDevicePayload) :
    Emits Quiet (connectDevice actions) := by
  unfold connectDevice
  apply emits_tryCatch
  · unfold connectDevice.tryBlock
    repeat' first
      | apply emits_bind
      | apply emits_selectGetDevices
      | apply emits_callPollForAppConnection
      | apply emits_put
      | apply emits_ofExcept
      | exact quiet_put _ rfl
      | exact quiet_select _
      | exact quiet_call _
      | intro (_ : Remote Devices)
      | intro (_ : Option String)
      | intro (_ : Transport)
  · intro e
    simp only [connectDevice.catchBlock, ReduxAction.logs]
    exact emits_raise _ _

/-- C4 at failing inputs: when the registry lookup fails (unknown device id) and when the poll
times out, `connectDevice` ends by raising the `TypeError` of `actions.logs.logErrorMessage`
(`actions` being the saga's parameter) and dispatches nothing; and in no run at all does it
dispatch a log entry, every run ending returned, pending or raised with that `TypeError`. -/
theorem connectDevice_failure_escapes_unlogged :
    (connectDevice connectUnknown).run envPaired =
      ⟨[.select .getDevices],
       .raised (.typeError "Cannot read property 'logErrorMessage' of undefined")⟩ ∧
    (connectDevice connectKnown).run envPollTimeout =
      ⟨[.select .getDevices, .call (.pollForAppConnection "LEDGER" "BTC" (some 5000))],
       .raised (.typeError "Cannot read property 'logErrorMessage' of undefined")⟩ ∧
    (∀ env actions,
      (emitted ((connectDevice actions).run env).trace).countP Action.isLog = 0) ∧
    (∀ env actions,
      ((connectDevice actions).run env).result = .returned () ∨
      ((connectDevice actions).run env).result = .pending ∨
      ((connectDevice actions).run env).result =
        .raised (.typeError "Cannot read property 'logErrorMessage' of undefined")) := by
  refine ⟨rfl, rfl, ?_, ?_⟩
  · intro env actions
    exact countP_emitted_quiet _ _ (fun a h => h.2.1)
      ((connectDevice_emits_quiet actions).of_run env)
  · intro env actions
    simp only [connectDevice, Saga.run, Saga.tryCatch, connectDevice.catchBlock,
      ReduxAction.logs, Saga.raise]
    rcases (connectDevice.tryBlock actions env []) with ⟨tr, _ | _ | _⟩ <;> simp

/-! ### Discovery and failure of the setup saga -/

theorem head_tryCatch_bind {α β : Type} {m : Saga α} {f : α → Saga β} {h : Err → Saga β}
    {ev : Event} (hm : ∀ env, (m env []).trace = [ev])
    (hf : ∀ a, Emits (fun _ => True) (f a)) (hh : ∀ e, Emits (fun _ => True) (h e))
    (env : Env) : ((Saga.tryCatch (m >>= f) h).run env).trace.head? = some ev := by
  have h1 := hm env
  simp only [Saga.run, Saga.tryCatch, bind_def, andThen]
  generalize m env [] = r at h1
  obtain ⟨tr1, res⟩ := r
  simp only at h1
  subst h1
  cases res with
  | returned a =>
    obtain ⟨s2, h2, _⟩ := hf a env [ev]
    rcases hfa : f a env [ev] with ⟨tr2, res2⟩
    rw [hfa] at h2
    simp only at h2
    subst h2
    cases res2 with
    | raised e =>
      obtain ⟨s3, h3, _⟩ := hh e env ([ev] ++ s2)
      simp only [List.singleton_append] at h3
      simp [hfa, h3]
    | returned b => simp [hfa]
    | pending => simp [hfa]
  | raised e =>
    obtain ⟨s3, h3, _⟩ := hh e env [ev]
    simp [h3]
  | pending => simp

theorem initializeNewDeviceSetup_emits (P : Event → Prop)
    (hcall : ∀ c, P (.call c)) (hsel : ∀ s, P (.select s))
    (hrace : ∀ t b, P (.race (.value t) b)) (halert : ∀ msg, P (.windowAlert msg))
    (hput : ∀ a, P (.put a)) :
    Emits P initializeNewDeviceSetup := by
  unfold initializeNewDeviceSetup
  apply emits_tryCatch
  · unfold initializeNewDeviceSetup.tryBlock
    repeat' first
      | apply emits_bind
      | apply emits_ite
      | apply emits_callPollForAppConnection
      | apply emits_callDerviveDeviceInfo
      | apply emits_callDeriveDeviceID
      | apply emits_selectGetDevices
      | apply emits_race
      | apply emits_put
      | apply hcall
      | apply hsel
      | apply hrace
      | apply hput
      | intro (_ : Unit)
      | intro (_ : Transport)
      | intro (_ : String × Transport)
      | intro (_ : DeviceInfo)
      | intro (_ : String)
      | intro (_ : Remote Devices)
  · intro e
    unfold initializeNewDeviceSetup.catchBlock
    exact emits_bind (emits_emit (halert _)) (fun _ => emits_put (hput _))

/-- C3 at the failing input, and in general. With a Blockchain device answering the dashboard
poll and no Ledger device answering, the saga has issued the `LEDGER` call alone and waits on
it: it never proceeds with `BLOCKCHAIN`. In every run the first effect is that `call`, not a
`race`, and no `race` is ever issued with a `LEDGER` entry still to be run. -/
theorem initializeNewDeviceSetup_polls_ledger_before_race :
    envBlockchainFirst.pollForAppConnection "BLOCKCHAIN" "DASHBOARD" (some 1500000) =
      .returned ⟨2⟩ ∧
    initializeNewDeviceSetup.run envBlockchainFirst =
      ⟨[.call (.pollForAppConnection "LEDGER" "DASHBOARD" (some 1500000))], .pending⟩ ∧
    (∀ env, (initializeNewDeviceSetup.run env).trace.head? =
      some (.call (.pollForAppConnection "LEDGER" "DASHBOARD" (some 1500000)))) ∧
    (∀ env, (initializeNewDeviceSetup.run env).trace.all Event.raceLedgerSettled = true) := by
  refine ⟨rfl, rfl, ?_, ?_⟩
  · intro env
    unfold initializeNewDeviceSetup initializeNewDeviceSetup.tryBlock
    refine head_tryCatch_bind (fun _ => rfl) ?_ ?_ env
    · intro ledger
      repeat' first
        | apply emits_bind
        | apply emits_ite
        | apply emits_callPollForAppConnection
        | apply emits_callDerviveDeviceInfo
        | apply emits_callDeriveDeviceID
        | apply emits_selectGetDevices
        | apply emits_race
        | apply emits_put
        | trivial
        | intro (_ : Unit)
        | intro (_ : Transport)
        | intro (_ : String × Transport)
        | intro (_ : DeviceInfo)
        | intro (_ : String)
        | intro (_ : Remote Devices)
    · intro e
      unfold initializeNewDeviceSetup.catchBlock
      exact emits_bind (emits_emit trivial) (fun _ => emits_put trivial)
  · intro env
    rw [List.all_eq_true]
    exact (initializeNewDeviceSetup_emits (fun ev => ev.raceLedgerSettled = true)
      (fun _ => rfl) (fun _ => rfl) (fun _ _ => rfl) (fun _ => rfl) (fun _ => rfl)).of_run env

theorem initializeNewDeviceSetup_tryBlock_endsWith :
    EndsWith (fun ev => ev.beforeVerdict = true) (fun _ => True)
      initializeNewDeviceSetup.tryBlock := by
  unfold initializeNewDeviceSetup.tryBlock
  repeat' first
    | apply endsWith_bind
    | apply endsWith_ite
    | apply endsWith_put
    | apply emits_callPollForAppConnection
    | apply emits_callDerviveDeviceInfo
    | apply emits_callDeriveDeviceID
    | apply emits_selectGetDevices
    | apply emits_race
    | apply emits_put
    | exact rfl
    | trivial
    | intro (_ : Unit)
    | intro (_ : Transport)
    | intro (_ : String × Transport)
    | intro (_ : DeviceInfo)
    | intro (_ : String)
    | intro (_ : Remote Devices)

theorem filter_isLog_beforeVerdict (s : List Event) (hs : ∀ ev ∈ s, ev.beforeVerdict = true) :
    (emitted s).filter Action.isLog = [] := by
  rw [List.filter_eq_nil_iff]
  intro a ha
  simp only [emitted, List.mem_filterMap] at ha
  obtain ⟨ev, hev, hea⟩ := ha
  have h := hs ev hev
  cases ev with
  | put b =>
    simp only [Option.some.injEq] at hea
    subst hea
    cases b <;> simp_all [Event.beforeVerdict, Action.isLog]
  | _ => simp at hea

theorem setupSteps_beforeVerdict (s : List Event) (hs : ∀ ev ∈ s, ev.beforeVerdict = true) :
    ∀ step ∈ setupSteps s, step = "open-btc-app" := by
  intro step hstep
  simp only [setupSteps, emitted, List.mem_filterMap] at hstep
  obtain ⟨a, ⟨ev, hev, hea⟩, has⟩ := hstep
  have h := hs ev hev
  cases ev with
  | put b =>
    simp only [Option.some.injEq] at hea
    subst hea
    cases b <;> simp_all [Event.beforeVerdict]
  | _ => simp at hea

/-- C7, as stated, fails: when the dashboard poll times out, the saga raises a window alert
and dispatches one log entry; it announces no setup step at all, so no `failed` one. -/
theorem initializeNewDeviceSetup_timeout_announces_no_step :
    envDashboardTimeout.pollForAppConnection "LEDGER" "DASHBOARD" (some 1500000) =
      .raised (.thrown "Timeout") ∧
    initializeNewDeviceSetup.run envDashboardTimeout =
      ⟨[.call (.pollForAppConnection "LEDGER" "DASHBOARD" (some 1500000)),
        .windowAlert "DEVICE CONNECTION TIMEOUT",
        .put (.logErrorMessage "components/lockbox/sagas" "initializeNewDeviceSetup"
          (.thrown "Timeout"))],
       .returned ()⟩ ∧
    setupSteps (initializeNewDeviceSetup.run envDashboardTimeout).trace = [] :=
  ⟨rfl, rfl, by decide⟩

/-- C7, amended. When a step of `initializeNewDeviceSetup` fails with error `e` (and the put
of the log entry does not fail), the saga does not raise; after the events of the `try` block
it raises the window alert `DEVICE CONNECTION TIMEOUT` and dispatches the log entry
`logErrorMessage('components/lockbox/sagas', 'initializeNewDeviceSetup', e)`, the only log
entry of the run; no `failed` step is announced: the only step a failing run can have announced
is `open-btc-app`. In particular, when the dashboard poll fails, the events are exactly the
call, the alert and the log entry. -/
theorem initializeNewDeviceSetup_failure_alerts_and_logs (env : Env) (e : Err)
    (hfail : (initializeNewDeviceSetup.tryBlock.run env).result = .raised e)
    (hlog : env.putFails (.logErrorMessage logLocation "initializeNewDeviceSetup" e) = none) :
    (initializeNewDeviceSetup.run env).result = .returned () ∧
    (initializeNewDeviceSetup.run env).trace =
      (initializeNewDeviceSetup.tryBlock.run env).trace ++
        [.windowAlert "DEVICE CONNECTION TIMEOUT",
         .put (.logErrorMessage logLocation "initializeNewDeviceSetup" e)] ∧
    (emitted (initializeNewDeviceSetup.run env).trace).filter Action.isLog =
      [.logErrorMessage logLocation "initializeNewDeviceSetup" e] ∧
    (∀ step ∈ setupSteps (initializeNewDeviceSetup.run env).trace, step = "open-btc-app") ∧
    (env.pollForAppConnection "LEDGER" "DASHBOARD" (some 1500000) = .raised e →
      (initializeNewDeviceSetup.run env).trace =
        [.call (.pollForAppConnection "LEDGER" "DASHBOARD" (some 1500000)),
         .windowAlert "DEVICE CONNECTION TIMEOUT",
         .put (.logErrorMessage logLocation "initializeNewDeviceSetup" e)]) := by
  obtain ⟨s, hs, h⟩ := initializeNewDeviceSetup_tryBlock_endsWith env []
  simp only [Saga.run] at hfail ⊢
  have htr : (initializeNewDeviceSetup.tryBlock env []).trace = s := by
    rcases h with ⟨l, _, h⟩ | ⟨h, _⟩
    · rw [h] at hfail
      simp at hfail
    · simpa using h
  have hrun : initializeNewDeviceSetup env [] =
      ⟨s ++ [.windowAlert "DEVICE CONNECTION TIMEOUT",
        .put (.logErrorMessage logLocation "initializeNewDeviceSetup" e)], .returned ()⟩ := by
    rcases htry : initializeNewDeviceSetup.tryBlock env [] with ⟨tr, res⟩
    rw [htry] at hfail htr
    simp only at hfail htr
    subst hfail htr
    simp [initializeNewDeviceSetup, Saga.tryCatch, htry, initializeNewDeviceSetup.catchBlock,
      Saga.andThen, Saga.emit, Saga.put, actionsLogs, hlog]
  rw [hrun, htr]
  refine ⟨rfl, rfl, ?_, ?_, ?_⟩
  · rw [emitted_append, List.filter_append, filter_isLog_beforeVerdict s hs]
    rfl
  · intro step hstep
    have : setupSteps (s ++ [.windowAlert "DEVICE CONNECTION TIMEOUT",
        .put (.logErrorMessage logLocation "initializeNewDeviceSetup" e)]) = setupSteps s := by
      simp [setupSteps, emitted]
    rw [this] at hstep
    exact setupSteps_beforeVerdict s hs step hstep
  · intro hpoll
    have : initializeNewDeviceSetup.tryBlock env [] =
        ⟨[.call (.pollForAppConnection "LEDGER" "DASHBOARD" (some 1500000))], .raised e⟩ := by
      simp [initializeNewDeviceSetup.tryBlock, Saga.andThen, callPollForAppConnection, hpoll]
    rw [this] at htr
    simp only at htr
    rw [← htr]
    rfl

theorem initializeNewDeviceSetup_failure_alerts_and_logs_witness :
    (initializeNewDeviceSetup.tryBlock.run envPollTimeout).result =
      .raised (.thrown "Timeout") ∧
    (initializeNewDeviceSetup.run envPollTimeout).result = .returned () ∧
    (emitted (initializeNewDeviceSetup.run envPollTimeout).trace).filter Action.isLog =
      [.logErrorMessage logLocation "initializeNewDeviceSetup" (.thrown "Timeout")] ∧
    (initializeNewDeviceSetup.run envPollTimeout).trace =
      [.call (.pollForAppConnection "LEDGER" "DASHBOARD" (some 1500000)),
       .windowAlert "DEVICE CONNECTION TIMEOUT",
       .put (.logErrorMessage logLocation "initializeNewDeviceSetup" (.thrown "Timeout"))] :=
  ⟨rfl,
    (initializeNewDeviceSetup_failure_alerts_and_logs envPollTimeout (.thrown "Timeout")
      rfl rfl).1,
    (initializeNewDeviceSetup_failure_alerts_and_logs envPollTimeout (.thrown "Timeout")
      rfl rfl).2.2.1,
    (initializeNewDeviceSetup_failure_alerts_and_logs envPollTimeout (.thrown "Timeout")
      rfl rfl).2.2.2.2 rfl⟩

end Lockbox
